import Mathlib

/-!
Verification of the planning/option/voter domain model of the gandalf bot.

The definitions below are a shallow embedding of `planning.py` (the entity
classes `Planning`, `Option` and `Voter` and their persistence operations)
and of the inline-query parsing step of `handlers.py`.  The sqlite database
reached through `db_conn` is modelled as an explicit state value `DB` holding
the four tables as lists of rows, threaded through every operation; the
autoincremented rowids handed out by sqlite are modelled by per-table
counters.  Every Python exception surfaces as an `Except.error`:
`AssertionError` (the only error the module raises itself) keeps its message,
and the sqlite3 binding error triggered by passing a bare integer instead of
a parameter tuple to `cursor.execute` gets its own constructor.
-/

namespace Gandalf

/-- Embeds `Planning.Status` (a three-valued str Enum in the source). -/
inductive Status where
  | underConstruction
  | opened
  | closed
deriving DecidableEq, Repr

/-- Runtime failures of the embedded code.  `assertionError` models a failing
Python `assert` statement with its message (an empty message for a bare
`assert`); `parameterBindingError` models the error the sqlite3 driver raises
when `cursor.execute` receives a bare integer instead of a parameter
sequence; `integrityError` models a violated NOT NULL column constraint. -/
inductive Err where
  | assertionError (msg : String) : Err
  | parameterBindingError : Err
  | integrityError : Err
deriving DecidableEq, Repr

/-- Row of the `plannings` table: `pl_id INTEGER PRIMARY KEY, user_id INTEGER,
title TEXT NOT NULL, status TEXT NOT NULL`. -/
structure PlanningRow where
  pl_id : Nat
  user_id : Int
  title : String
  status : Status
deriving DecidableEq, Repr

/-- Row of the `options` table: `opt_id INTEGER PRIMARY KEY, pl_id INTEGER
NOT NULL, txt TEXT NOT NULL, num INTEGER NOT NULL`. -/
structure OptionRow where
  opt_id : Nat
  pl_id : Nat
  txt : String
  num : Nat
deriving DecidableEq, Repr

/-- Row of the `voters` table: `v_id INTEGER NOT NULL UNIQUE, first_name TEXT
NOT NULL, last_name TEXT`. -/
structure VoterRow where
  v_id : Int
  first_name : String
  last_name : Option String
deriving DecidableEq, Repr

/-- Row of the `votes` table: `opt_id INTEGER NOT NULL, v_id INTEGER NOT
NULL`, linking a voter to a voted option.  The table declares no uniqueness
constraint on the pair. -/
structure VoteRow where
  opt_id : Nat
  v_id : Int
deriving DecidableEq, Repr

/-- The sqlite database as explicit state: the four tables created by the
`create_tables_in_db` class methods, in insertion order, plus the next rowid
sqlite would hand out for each autoincremented primary key. -/
structure DB where
  plannings : List PlanningRow
  options : List OptionRow
  voters : List VoterRow
  votes : List VoteRow
  nextPlId : Nat
  nextOptId : Nat
deriving DecidableEq, Repr

/-- In-memory `Planning` instance: `pl_id` is `none` until the first save
assigns the database-generated id. -/
structure Planning where
  pl_id : Option Nat
  user_id : Int
  title : String
  status : Status
deriving DecidableEq, Repr

/-- In-memory `Option` instance (named `Opt` here because `Option` is taken
by Lean): `opt_id` is `none` until the first save. -/
structure Opt where
  opt_id : Option Nat
  pl_id : Nat
  txt : String
  num : Nat
deriving DecidableEq, Repr

/-- In-memory `Voter` instance; its id comes from Telegram, never from the
database. -/
structure Voter where
  v_id : Int
  first_name : String
  last_name : Option String
deriving DecidableEq, Repr

/-- Telepot `User` namedtuple as received by `add_vote_to_db`. -/
structure User where
  id : Int
  first_name : String
  last_name : Option String
deriving DecidableEq, Repr

/-- Embeds `Planning.is_in_db` (planning.py line 266).  When `pl_id` is
`None` the method returns `False` before touching the database.  Otherwise it
runs `c.execute("SELECT * FROM plannings WHERE pl_id=?", (self.pl_id))`:
`(self.pl_id)` is a bare integer, not a one-element tuple, so the sqlite3
driver rejects the parameters before the query executes and the method
raises instead of returning a boolean. -/
def Planning.is_in_db (p : Planning) (_db : DB) : Except Err Bool :=
  match p.pl_id with
  | none => .ok false
  | some _ => .error .parameterBindingError

/-- Embeds `Planning.save_to_db` (planning.py line 293): asserts the planning
is not yet stored, inserts the row, and assigns the generated rowid to the
instance. -/
def Planning.save_to_db (p : Planning) (db : DB) : Except Err (Planning × DB) :=
  match p.is_in_db db with
  | .error e => .error e
  | .ok true => .error (.assertionError "planning can be saved in database only once.")
  | .ok false =>
      let newId := db.nextPlId
      .ok ({ p with pl_id := some newId },
           { db with
              plannings := db.plannings ++ [⟨newId, p.user_id, p.title, p.status⟩],
              nextPlId := newId + 1 })

/-- Embeds `Planning.open` (planning.py line 188): asserts the current status
is `UNDER_CONSTRUCTION`, then switches it to `OPENED`.  (`open` is a Lean
keyword, hence the longer name.) -/
def Planning.openPlanning (p : Planning) : Except Err Planning :=
  if p.status = Status.underConstruction then
    .ok { p with status := Status.opened }
  else
    .error (.assertionError "")

/-- Embeds `Planning.close` (planning.py line 195): asserts the current
status is `OPENED`, then switches it to `CLOSED`. -/
def Planning.close (p : Planning) : Except Err Planning :=
  if p.status = Status.opened then
    .ok { p with status := Status.closed }
  else
    .error (.assertionError "")

/-- Embeds `Option.load_all_from_planning_id_from_db` (planning.py line 774):
`SELECT * FROM options WHERE pl_id=? ORDER BY num`, each row turned into an
`Option` instance. -/
def Opt.load_all_from_planning_id_from_db (db : DB) (pl_id : Nat) : List Opt :=
  (((db.options.filter (fun r => r.pl_id == pl_id)).mergeSort
      (fun a b => a.num ≤ b.num)).map
    (fun r => ⟨some r.opt_id, r.pl_id, r.txt, r.num⟩))

/-- Embeds `Option.is_in_db` (planning.py line 637): `False` when `opt_id`
is `None`, otherwise whether a row with that `opt_id` exists.  Unlike the
`Planning` version, this one passes its parameter as a proper tuple. -/
def Opt.is_in_db (o : Opt) (db : DB) : Bool :=
  match o.opt_id with
  | none => false
  | some oid => (db.options.filter (fun r => r.opt_id == oid)).length > 0

/-- Embeds `Option.save_to_db` (planning.py line 667): asserts the option is
not yet stored, inserts the row, and assigns the generated rowid. -/
def Opt.save_to_db (o : Opt) (db : DB) : Except Err (Opt × DB) :=
  if o.is_in_db db then
    .error (.assertionError "Option can be saved in database only once.")
  else
    let newId := db.nextOptId
    .ok ({ o with opt_id := some newId },
         { db with
            options := db.options ++ [⟨newId, o.pl_id, o.txt, o.num⟩],
            nextOptId := newId + 1 })

/-- Embeds `Planning.add_option` (planning.py line 202): builds an `Option`
with `num = len(self.options)` and saves it.  The two error branches are the
`Option` constructor preconditions `assert pl_id is not None` and
`assert txt != the empty string`.  The first component of the result is the
value the Python method hands back to its caller: the method body has no
`return` statement, so it is always `none` (Python `None`). -/
def Planning.add_option (p : Planning) (txt : String) (db : DB) :
    Except Err (Option Opt × DB) :=
  match p.pl_id with
  | none => .error (.assertionError "")
  | some plid =>
    if txt = "" then .error (.assertionError "")
    else
      match Opt.save_to_db ⟨none, plid, txt,
          (Opt.load_all_from_planning_id_from_db db plid).length⟩ db with
      | .error e => .error e
      | .ok (_, db1) => .ok (none, db1)

/-- Embeds `Planning.remove_from_db` (planning.py line 342): asserts the
planning has an id, deletes its `options` rows, deletes its `plannings` row,
and checks that exactly one planning row was deleted before committing.  The
`votes` table is never touched (the source carries the comment
`TODO remove votes from database too`).  When a check fails nothing is
committed, so the database state is unchanged. -/
def Planning.remove_from_db (p : Planning) (db : DB) : Except Err DB :=
  match p.pl_id with
  | none => .error (.assertionError "")
  | some plid =>
    let rowcount := (db.plannings.filter (fun r => r.pl_id == plid)).length
    if rowcount = 0 then
      .error (.assertionError "Tried to remove planning with id that is not in database.")
    else if 2 ≤ rowcount then
      .error (.assertionError "Removed more than one planning with id from the database.")
    else
      .ok { db with
              options := db.options.filter (fun r => !(r.pl_id == plid)),
              plannings := db.plannings.filter (fun r => !(r.pl_id == plid)) }

/-- Rows selected by `SELECT * FROM plannings WHERE status=? AND user_id=?`
with the under-construction status, in insertion order. -/
def Planning.under_construction_rows (user_id : Int) (db : DB) : List PlanningRow :=
  db.plannings.filter (fun r =>
    decide (r.status = Status.underConstruction) && r.user_id == user_id)

/-- Embeds `Planning.load_under_construction_from_db` (planning.py line 441):
asserts at most one row matches, returns the matching planning or `None`. -/
def Planning.load_under_construction_from_db (user_id : Int) (db : DB) :
    Except Err (Option Planning) :=
  let rows := Planning.under_construction_rows user_id db
  if rows.length ≤ 1 then
    match rows with
    | [] => .ok none
    | r :: _ => .ok (some ⟨some r.pl_id, r.user_id, r.title, r.status⟩)
  else
    .error (.assertionError
      "There should never be more than one planning in edition at any given time.")

/-- Embeds `Voter.is_in_db` (planning.py line 878): whether a `voters` row
with this Telegram id exists. -/
def Voter.is_in_db (v : Voter) (db : DB) : Bool :=
  (db.voters.filter (fun r => r.v_id == v.v_id)).length > 0

/-- Embeds `Voter.save_to_db` (planning.py line 902): asserts the voter is
absent, then inserts its row. -/
def Voter.save_to_db (v : Voter) (db : DB) : Except Err DB :=
  if v.is_in_db db then
    .error (.assertionError "Voter can be saved in database only once.")
  else
    .ok { db with voters := db.voters ++ [⟨v.v_id, v.first_name, v.last_name⟩] }

/-- Embeds `Voter.update_to_db` (planning.py line 916): asserts the voter is
present, then runs `UPDATE voters SET first_name=?, last_name=? WHERE
v_id=?`, rewriting the name columns of every row with this id. -/
def Voter.update_to_db (v : Voter) (db : DB) : Except Err DB :=
  if v.is_in_db db then
    .ok { db with voters := db.voters.map (fun r =>
            if r.v_id == v.v_id then
              { r with first_name := v.first_name, last_name := v.last_name }
            else r) }
  else
    .error (.assertionError "Voter can be saved in database only once.")

/-- Embeds `Voter.create_or_update_to_db` (planning.py line 935): selects the
rows with this id; if some exist it asserts there is exactly one and updates
it, otherwise it inserts; either way the built `Voter` instance is
returned. -/
def Voter.create_or_update_to_db (v_id : Int) (first_name : String)
    (last_name : Option String) (db : DB) : Except Err (Voter × DB) :=
  let voter : Voter := ⟨v_id, first_name, last_name⟩
  let rows := db.voters.filter (fun r => r.v_id == v_id)
  if rows.length > 0 then
    if rows.length = 1 then
      match voter.update_to_db db with
      | .error e => .error e
      | .ok db1 => .ok (voter, db1)
    else
      .error (.assertionError "Voter id should be unique (they are Telegram user id.")
  else
    match voter.save_to_db db with
    | .error e => .error e
    | .ok db1 => .ok (voter, db1)

/-- Embeds `Option.add_vote_to_db` (planning.py line 705): upserts the voter,
then runs `INSERT INTO votes(opt_id, v_id) VALUES (?,?)` unconditionally.
Neither the status of the parent planning nor an existing vote by the same
voter is checked: both checks are `TODO` comments in the source (lines 723
and 803).  The method body has no `return` statement, so the caller receives
Python `None`, not the upserted voter. -/
def Opt.add_vote_to_db (o : Opt) (user : User) (db : DB) : Except Err DB :=
  match Voter.create_or_update_to_db user.id user.first_name user.last_name db with
  | .error e => .error e
  | .ok (voter, db1) =>
    match o.opt_id with
    | none => .error .integrityError
    | some oid => .ok { db1 with votes := db1.votes ++ [⟨oid, voter.v_id⟩] }

/-- Models Python `str` on a nonnegative integer: its decimal digits, most
significant first.  Used by `inline_query_id` to render the planning id
inside the format string. -/
def pyStrNat (n : Nat) : List Char :=
  if _h : n < 10 then [Nat.digitChar n]
  else pyStrNat (n / 10) ++ [Nat.digitChar (n % 10)]
decreasing_by exact Nat.div_lt_self (by omega) (by omega)

/-- Embeds `Planning.inline_query_id` (planning.py line 255): the fixed
marker `planning_` (the class constant used for inline query ids)
concatenated with `str(self.pl_id)`; Python renders an unsaved id (`None`)
as the four characters `None`. -/
def Planning.inline_query_id (p : Planning) : String :=
  match p.pl_id with
  | some n => "planning_" ++ (⟨pyStrNat n⟩ : String)
  | none => "planning_" ++ "None"

/-- Models Python `int(s)` wrapped in `try ... except ValueError` on the
sliced query string: a nonempty all-digit string yields its decimal value,
anything else yields `none`.  (Full `int()` also accepts a sign and blanks;
the strings this program derives from a stored planning id are plain digit
strings, which this model handles exactly.) -/
def pyIntNat (s : List Char) : Option Nat :=
  if s ≠ [] ∧ s.all (fun c => c.isDigit) then
    some (s.foldl (fun acc c => acc * 10 + (c.toNat - 48)) 0)
  else none

/-- Embeds the query-decoding step of `PlannerInlineHandler.on_inline_query`
(handlers.py line 461): if the query string starts with the planning marker,
slice it off (`query_string[9:]`, nine being the length of the marker) and
parse the remainder as an integer; a missing marker or a failed parse yields
no planning id. -/
def on_inline_query_planning_id (query_string : String) : Option Nat :=
  if ("planning_" : String).data.isPrefixOf query_string.data then
    pyIntNat (query_string.data.drop ("planning_" : String).data.length)
  else none

/-- Claim C1: the spec requires `add_vote_to_db` on an option of a planning
whose status is Under construction or Closed to fail with a LogicError and
create no vote-link row.  The code performs no status check at all: here the
call succeeds on a Closed planning and on an Under-construction planning
alike, inserting the vote-link row each time (and handing back Python None,
not the upserted voter).  The check exists only as a TODO comment in the
source, and the test suite imports a LogicError class that planning.py never
defines. -/
theorem add_vote_ignores_planning_status :
    Opt.add_vote_to_db ⟨some 1, 1, "Mon", 0⟩ ⟨900, "Alice", none⟩
      ⟨[⟨1, 7, "T", Status.closed⟩], [⟨1, 1, "Mon", 0⟩], [], [], 2, 2⟩ =
      .ok ⟨[⟨1, 7, "T", Status.closed⟩], [⟨1, 1, "Mon", 0⟩],
           [⟨900, "Alice", none⟩], [⟨1, 900⟩], 2, 2⟩ ∧
    Opt.add_vote_to_db ⟨some 1, 1, "Mon", 0⟩ ⟨900, "Alice", none⟩
      ⟨[⟨1, 7, "T", Status.underConstruction⟩], [⟨1, 1, "Mon", 0⟩], [], [], 2, 2⟩ =
      .ok ⟨[⟨1, 7, "T", Status.underConstruction⟩], [⟨1, 1, "Mon", 0⟩],
           [⟨900, "Alice", none⟩], [⟨1, 900⟩], 2, 2⟩ :=
  ⟨rfl, rfl⟩

/-- Claim C2: the spec requires a second `add_vote_to_db` by the same voter
on the same option to fail with a MultipleVoteError and leave the vote-link
rows unchanged.  The code never checks for an existing vote (the check is a
TODO comment) and the `votes` table carries no uniqueness constraint on
`(opt_id, v_id)`: starting from a database where voter 900 already voted for
option 1, the identical second call succeeds and a duplicate vote-link row
appears, raising the voter count of the option. -/
theorem second_identical_vote_inserts_second_row :
    Opt.add_vote_to_db ⟨some 1, 1, "Mon", 0⟩ ⟨900, "Alice", none⟩
      ⟨[⟨1, 7, "T", Status.opened⟩], [⟨1, 1, "Mon", 0⟩],
       [⟨900, "Alice", none⟩], [⟨1, 900⟩], 2, 2⟩ =
      .ok ⟨[⟨1, 7, "T", Status.opened⟩], [⟨1, 1, "Mon", 0⟩],
           [⟨900, "Alice", none⟩], [⟨1, 900⟩, ⟨1, 900⟩], 2, 2⟩ :=
  rfl

/-- Claim C3: the spec requires `remove_from_db` to delete, in one atomic
operation, the planning row, its option rows and every vote-link row
referencing those options, while leaving voters and other plannings alone.
The code deletes only from `options` and `plannings` (removing the votes is
a TODO comment in the source, and the test exercising it is skipped): here
planning 2 and its option 2 are removed and planning 1, option 1 and all
voters survive as specified, but the vote-link row for the deleted option 2
is still present afterwards. -/
theorem remove_from_db_leaves_vote_rows :
    Planning.remove_from_db ⟨some 2, 7, "Dude", Status.opened⟩
      ⟨[⟨1, 7, "Girl", Status.opened⟩, ⟨2, 7, "Dude", Status.opened⟩],
       [⟨1, 1, "Mon", 0⟩, ⟨2, 2, "Tue", 0⟩],
       [⟨900, "A", none⟩, ⟨901, "B", none⟩],
       [⟨1, 900⟩, ⟨2, 901⟩], 3, 3⟩ =
      .ok ⟨[⟨1, 7, "Girl", Status.opened⟩],
           [⟨1, 1, "Mon", 0⟩],
           [⟨900, "A", none⟩, ⟨901, "B", none⟩],
           [⟨1, 900⟩, ⟨2, 901⟩], 3, 3⟩ :=
  rfl

/-- Claim C6: the spec requires the first `save_to_db` to insert one row and
assign the generated id, and any second save of the same instance to fail
with the precondition error (the docstring of `Planning.save_to_db` promises
an AssertionError).  The Option half behaves exactly like that.  The
Planning half inserts and assigns correctly on the first save, but the
second save dies inside `is_in_db` with the sqlite3 parameter-binding error
— `(self.pl_id)` is a bare integer, not a tuple — before the precondition
assert can fire, contradicting the docstring; no row is inserted either
way. -/
theorem second_save_behaviour :
    Planning.save_to_db ⟨none, 7, "Diner", Status.underConstruction⟩
      ⟨[], [], [], [], 1, 1⟩ =
      .ok (⟨some 1, 7, "Diner", Status.underConstruction⟩,
           ⟨[⟨1, 7, "Diner", Status.underConstruction⟩], [], [], [], 2, 1⟩) ∧
    Planning.save_to_db ⟨some 1, 7, "Diner", Status.underConstruction⟩
      ⟨[⟨1, 7, "Diner", Status.underConstruction⟩], [], [], [], 2, 1⟩ =
      .error Err.parameterBindingError ∧
    Opt.save_to_db ⟨none, 1, "Mon", 0⟩
      ⟨[⟨1, 7, "Diner", Status.underConstruction⟩], [], [], [], 2, 1⟩ =
      .ok (⟨some 1, 1, "Mon", 0⟩,
           ⟨[⟨1, 7, "Diner", Status.underConstruction⟩], [⟨1, 1, "Mon", 0⟩],
            [], [], 2, 2⟩) ∧
    Opt.save_to_db ⟨some 1, 1, "Mon", 0⟩
      ⟨[⟨1, 7, "Diner", Status.underConstruction⟩], [⟨1, 1, "Mon", 0⟩],
       [], [], 2, 2⟩ =
      .error (Err.assertionError "Option can be saved in database only once.") :=
  ⟨rfl, rfl, rfl, rfl⟩

/-- Claim C4: the status state machine only moves forward.  `open` succeeds
exactly when the current status is Under construction (so a second
consecutive `open` hits the error branch), `close` succeeds exactly when the
current status is Opened (so `close` on an under-construction planning
fails), and every other request — same-state no-ops, skipping Opened, or
moving backward — ends in the failing `assert` that renders the invalid
transition error of the spec. -/
theorem open_close_state_machine (p : Planning) :
    (p.status = Status.underConstruction →
        Planning.openPlanning p = .ok { p with status := Status.opened }) ∧
    (p.status ≠ Status.underConstruction →
        Planning.openPlanning p = .error (.assertionError "")) ∧
    (p.status = Status.opened →
        Planning.close p = .ok { p with status := Status.closed }) ∧
    (p.status ≠ Status.opened →
        Planning.close p = .error (.assertionError "")) := by
  refine ⟨fun h => ?_, fun h => ?_, fun h => ?_, fun h => ?_⟩ <;>
    simp [Planning.openPlanning, Planning.close, h]

/-- Concrete run of the state machine: opening an under-construction
planning succeeds and a second `open` fails; closing the opened planning
succeeds, while closing before opening fails. -/
theorem open_close_state_machine_witness :
    Planning.openPlanning ⟨none, 1, "T", Status.underConstruction⟩ =
      .ok ⟨none, 1, "T", Status.opened⟩ ∧
    Planning.openPlanning ⟨none, 1, "T", Status.opened⟩ =
      .error (.assertionError "") ∧
    Planning.close ⟨none, 1, "T", Status.opened⟩ =
      .ok ⟨none, 1, "T", Status.closed⟩ ∧
    Planning.close ⟨none, 1, "T", Status.underConstruction⟩ =
      .error (.assertionError "") :=
  ⟨(open_close_state_machine ⟨none, 1, "T", Status.underConstruction⟩).1 rfl,
   (open_close_state_machine ⟨none, 1, "T", Status.opened⟩).2.1 (by decide),
   (open_close_state_machine ⟨none, 1, "T", Status.opened⟩).2.2.1 rfl,
   (open_close_state_machine ⟨none, 1, "T", Status.underConstruction⟩).2.2.2 (by decide)⟩

/-- Claim C10: `Planning.is_in_db` produces a boolean — `False` — only when
`pl_id` is still `None`.  As soon as an id has been assigned, the lookup
passes the raw integer instead of a parameter tuple to `cursor.execute`, so
the call raises the binding error instead of answering; consequently a
second `save_to_db` of a persisted planning terminates with that same error
(rather than the documented assert-based behaviour). -/
theorem is_in_db_boolean_only_when_unsaved (p : Planning) (db : DB) :
    (p.pl_id = none → Planning.is_in_db p db = .ok false) ∧
    (p.pl_id ≠ none →
        Planning.is_in_db p db = .error Err.parameterBindingError ∧
        Planning.save_to_db p db = .error Err.parameterBindingError) := by
  constructor
  · intro h
    simp [Planning.is_in_db, h]
  · intro h
    match hp : p.pl_id with
    | none => exact absurd hp h
    | some n =>
        refine ⟨?_, ?_⟩ <;> simp [Planning.is_in_db, Planning.save_to_db, hp]

/-- Concrete run: an unsaved planning gets the boolean `False`, a persisted
one gets the binding error from both `is_in_db` and `save_to_db`. -/
theorem is_in_db_boolean_only_when_unsaved_witness :
    Planning.is_in_db ⟨none, 7, "T", Status.underConstruction⟩
      ⟨[], [], [], [], 1, 1⟩ = .ok false ∧
    Planning.is_in_db ⟨some 3, 7, "T", Status.underConstruction⟩
      ⟨[], [], [], [], 1, 1⟩ = .error Err.parameterBindingError ∧
    Planning.save_to_db ⟨some 3, 7, "T", Status.underConstruction⟩
      ⟨[], [], [], [], 1, 1⟩ = .error Err.parameterBindingError :=
  ⟨(is_in_db_boolean_only_when_unsaved ⟨none, 7, "T", Status.underConstruction⟩
      ⟨[], [], [], [], 1, 1⟩).1 rfl,
   (is_in_db_boolean_only_when_unsaved ⟨some 3, 7, "T", Status.underConstruction⟩
      ⟨[], [], [], [], 1, 1⟩).2 (by decide) |>.1,
   (is_in_db_boolean_only_when_unsaved ⟨some 3, 7, "T", Status.underConstruction⟩
      ⟨[], [], [], [], 1, 1⟩).2 (by decide) |>.2⟩

/-- Computation rule for `add_option` on a persisted planning and a nonempty
text: one option row is appended, its `num` being the count of the existing
option rows of the planning, and the method returns `none`.  (The `ORDER BY
num` sort inside the option load touches neither the count nor anything
else here, which is what this lemma discharges.) -/
theorem Planning.add_option_eq (p : Planning) (plid : Nat) (txt : String) (db : DB)
    (h1 : p.pl_id = some plid) (h2 : txt ≠ "") :
    Planning.add_option p txt db =
      .ok (none,
        { db with
            options := db.options ++
              [⟨db.nextOptId, plid, txt,
                (db.options.filter (fun r => r.pl_id == plid)).length⟩],
            nextOptId := db.nextOptId + 1 }) := by
  unfold Planning.add_option
  rw [h1]
  simp only [if_neg h2]
  unfold Opt.save_to_db Opt.is_in_db
  simp [Opt.load_all_from_planning_id_from_db, List.length_mergeSort]

/-- Claim C5 as stated is false on the code: `add_option` does construct the
option with the right ordinal and persist it, but its body has no `return`
statement, so the caller receives Python `None` — not the created Option
(the test asserting a returned option contradicts the code here).  At this
concrete input the created row is option 1 of planning 1 with text `Monday`
and ordinal 0, yet the returned value is `none`. -/
theorem add_option_returns_none_cex :
    Planning.add_option ⟨some 1, 7, "Diner", Status.underConstruction⟩ "Monday"
      ⟨[⟨1, 7, "Diner", Status.underConstruction⟩], [], [], [], 2, 1⟩ =
      .ok ((none : Option Opt),
           ⟨[⟨1, 7, "Diner", Status.underConstruction⟩],
            [⟨1, 1, "Monday", 0⟩], [], [], 2, 2⟩) ∧
    (none : Option Opt) ≠ some ⟨some 1, 1, "Monday", 0⟩ :=
  ⟨by rw [Planning.add_option_eq _ 1 "Monday" _ rfl (by decide)]; rfl, by decide⟩

/-- Claim C5 (amended): for every persisted planning, `add_option` with a
nonempty text constructs an option whose ordinal equals the current count of
the planning's existing option rows (hence consecutive ordinals starting at
zero when all options are added this way), persists it as one new row with
the next generated id, and hands the caller back `None` rather than the
created Option. -/
theorem add_option_spec (p : Planning) (plid : Nat) (txt : String) (db : DB)
    (h1 : p.pl_id = some plid) (h2 : txt ≠ "") :
    Planning.add_option p txt db =
      .ok (none,
        { db with
            options := db.options ++
              [⟨db.nextOptId, plid, txt,
                (db.options.filter (fun r => r.pl_id == plid)).length⟩],
            nextOptId := db.nextOptId + 1 }) :=
  Planning.add_option_eq p plid txt db h1 h2

/-- Concrete run of the amended C5: adding a second option to a planning
that already has one stores it with ordinal 1 and returns `None`. -/
theorem add_option_spec_witness :
    Planning.add_option ⟨some 1, 7, "Diner", Status.underConstruction⟩ "Tuesday"
      ⟨[⟨1, 7, "Diner", Status.underConstruction⟩], [⟨1, 1, "Monday", 0⟩],
       [], [], 2, 2⟩ =
      .ok ((none : Option Opt),
           ⟨[⟨1, 7, "Diner", Status.underConstruction⟩],
            [⟨1, 1, "Monday", 0⟩, ⟨2, 1, "Tuesday", 1⟩], [], [], 2, 3⟩) :=
  add_option_spec ⟨some 1, 7, "Diner", Status.underConstruction⟩ 1 "Tuesday"
    ⟨[⟨1, 7, "Diner", Status.underConstruction⟩], [⟨1, 1, "Monday", 0⟩],
     [], [], 2, 2⟩ rfl (by decide)

/-- Claim C7: `load_under_construction_from_db` answers `None` when the
owner has no under-construction planning, hands back the unique matching
planning (built from the stored row, which indeed belongs to that owner and
is under construction) when exactly one row matches, and dies on the
consistency assert when two or more rows match. -/
theorem load_under_construction_characterization (user_id : Int) (db : DB) :
    (Planning.under_construction_rows user_id db = [] →
        Planning.load_under_construction_from_db user_id db = .ok none) ∧
    (∀ r, Planning.under_construction_rows user_id db = [r] →
        Planning.load_under_construction_from_db user_id db =
          .ok (some ⟨some r.pl_id, r.user_id, r.title, r.status⟩) ∧
        r.status = Status.underConstruction ∧ r.user_id = user_id) ∧
    (2 ≤ (Planning.under_construction_rows user_id db).length →
        Planning.load_under_construction_from_db user_id db =
          .error (.assertionError
            "There should never be more than one planning in edition at any given time.")) := by
  refine ⟨fun h => ?_, fun r h => ?_, fun h => ?_⟩
  · simp [Planning.load_under_construction_from_db, h]
  · refine ⟨by simp [Planning.load_under_construction_from_db, h], ?_, ?_⟩ <;>
    · have hr : r ∈ Planning.under_construction_rows user_id db := by
        rw [h]; exact List.mem_singleton.mpr rfl
      have := (List.mem_filter.mp hr).2
      simp only [Bool.and_eq_true, decide_eq_true_eq, beq_iff_eq] at this
      first
        | exact this.1
        | exact this.2
  · have hne : ¬ (Planning.under_construction_rows user_id db).length ≤ 1 := by omega
    simp [Planning.load_under_construction_from_db, hne]

/-- Concrete run of C7 on a four-planning table: owner 9 has no
under-construction planning and gets `None`, owner 7 has exactly one and
gets it back, owner 8 has two and triggers the consistency failure. -/
theorem load_under_construction_characterization_witness :
    Planning.load_under_construction_from_db 9
      ⟨[⟨1, 7, "A", Status.opened⟩, ⟨2, 7, "B", Status.underConstruction⟩,
        ⟨3, 8, "C", Status.underConstruction⟩, ⟨4, 8, "D", Status.underConstruction⟩],
       [], [], [], 5, 1⟩ = .ok none ∧
    Planning.load_under_construction_from_db 7
      ⟨[⟨1, 7, "A", Status.opened⟩, ⟨2, 7, "B", Status.underConstruction⟩,
        ⟨3, 8, "C", Status.underConstruction⟩, ⟨4, 8, "D", Status.underConstruction⟩],
       [], [], [], 5, 1⟩ = .ok (some ⟨some 2, 7, "B", Status.underConstruction⟩) ∧
    Planning.load_under_construction_from_db 8
      ⟨[⟨1, 7, "A", Status.opened⟩, ⟨2, 7, "B", Status.underConstruction⟩,
        ⟨3, 8, "C", Status.underConstruction⟩, ⟨4, 8, "D", Status.underConstruction⟩],
       [], [], [], 5, 1⟩ =
      .error (.assertionError
        "There should never be more than one planning in edition at any given time.") :=
  ⟨(load_under_construction_characterization 9 _).1 (by decide),
   ((load_under_construction_characterization 7 _).2.1
      ⟨2, 7, "B", Status.underConstruction⟩ (by decide)).1,
   (load_under_construction_characterization 8 _).2.2 (by decide)⟩

/-- The in-place name update of `Voter.update_to_db` rewrites no ids, so
selecting the rows of a given id commutes with it. -/
theorem filter_vid_update (l : List VoterRow) (v_id : Int) (f : String)
    (ln : Option String) :
    (l.map (fun r => if r.v_id == v_id then
        { r with first_name := f, last_name := ln } else r)).filter
      (fun r => r.v_id == v_id) =
    (l.filter (fun r => r.v_id == v_id)).map (fun r => if r.v_id == v_id then
        { r with first_name := f, last_name := ln } else r) := by
  rw [List.filter_map]
  congr 1
  apply List.filter_congr
  intro a _
  by_cases h : a.v_id = v_id
  · simp [h, Function.comp]
  · simp [h, Function.comp]

/-- One upsert call on a table satisfying the UNIQUE constraint on `v_id`:
the call succeeds, returns the voter built from its arguments, leaves
exactly one row with that id — carrying the new names — and does not change
the table size when a row with that id was already present. -/
theorem create_or_update_step (v_id : Int) (f : String) (ln : Option String)
    (db : DB) (h : (db.voters.filter (fun r => r.v_id == v_id)).length ≤ 1) :
    ∃ db1, Voter.create_or_update_to_db v_id f ln db = .ok (⟨v_id, f, ln⟩, db1) ∧
      db1.voters.filter (fun r => r.v_id == v_id) = [⟨v_id, f, ln⟩] ∧
      (0 < (db.voters.filter (fun r => r.v_id == v_id)).length →
        db1.voters.length = db.voters.length) := by
  match hr : db.voters.filter (fun r => r.v_id == v_id) with
  | [] =>
      refine ⟨{ db with voters := db.voters ++ [⟨v_id, f, ln⟩] }, ?_, ?_, ?_⟩
      · simp [Voter.create_or_update_to_db, hr, Voter.save_to_db, Voter.is_in_db]
      · simp [List.filter_append, hr]
      · rw [hr]; intro hx; simp at hx
  | r :: rs =>
      have hrs : rs = [] := by
        rw [hr] at h
        simpa using h
      subst hrs
      have hrv : r.v_id = v_id := by
        have hm : r ∈ db.voters.filter (fun x => x.v_id == v_id) := by
          rw [hr]; exact List.mem_singleton.mpr rfl
        exact beq_iff_eq.mp (List.mem_filter.mp hm).2
      refine ⟨{ db with voters := db.voters.map (fun x => if x.v_id == v_id then
          { x with first_name := f, last_name := ln } else x) }, ?_, ?_, ?_⟩
      · simp [Voter.create_or_update_to_db, hr, Voter.update_to_db, Voter.is_in_db]
      · rw [filter_vid_update, hr]
        simp [hrv]
      · intro _
        exact List.length_map _ _

/-- Claim C8: the voter upsert is idempotent on identity.  Calling it twice
with the same id but different names succeeds both times and returns the
voter built from the given fields each time; the second call changes the
number of stored voter rows by nothing (the boolean length comparison in the
result tuple), and afterwards the single row with that id carries the names
of the second call — the display names were updated in place. -/
theorem create_or_update_idempotent_on_identity (v_id : Int) (f1 f2 : String)
    (l1 l2 : Option String) (db : DB)
    (h : (db.voters.filter (fun r => r.v_id == v_id)).length ≤ 1) :
    ((Voter.create_or_update_to_db v_id f1 l1 db).bind (fun r1 =>
        (Voter.create_or_update_to_db v_id f2 l2 r1.2).map (fun r2 =>
          (r1.1, r2.1, r2.2.voters.length == r1.2.voters.length,
           r2.2.voters.filter (fun r => r.v_id == v_id))))) =
      .ok (⟨v_id, f1, l1⟩, ⟨v_id, f2, l2⟩, true,
           [(⟨v_id, f2, l2⟩ : VoterRow)]) := by
  obtain ⟨db1, e1, hf1, -⟩ := create_or_update_step v_id f1 l1 db h
  obtain ⟨db2, e2, hf2, hlen⟩ :=
    create_or_update_step v_id f2 l2 db1 (by rw [hf1]; simp)
  have hl : db2.voters.length = db1.voters.length := hlen (by rw [hf1]; simp)
  rw [e1]
  simp [Except.bind, Except.map, e2, hf2, hl]

/-- Concrete run of C8: upserting voter 5 as Monica and then again as Mon
Geller keeps a single row, now carrying the second pair of names. -/
theorem create_or_update_idempotent_on_identity_witness :
    ((Voter.create_or_update_to_db 5 "Monica" none
        ⟨[], [], [⟨9, "Ross", none⟩], [], 1, 1⟩).bind (fun r1 =>
        (Voter.create_or_update_to_db 5 "Mon" (some "Geller") r1.2).map (fun r2 =>
          (r1.1, r2.1, r2.2.voters.length == r1.2.voters.length,
           r2.2.voters.filter (fun r => r.v_id == 5))))) =
      .ok (⟨5, "Monica", none⟩, ⟨5, "Mon", some "Geller"⟩, true,
           [(⟨5, "Mon", some "Geller"⟩ : VoterRow)]) :=
  create_or_update_idempotent_on_identity 5 "Monica" "Mon" none (some "Geller")
    ⟨[], [], [⟨9, "Ross", none⟩], [], 1, 1⟩ (by decide)

/-- A single decimal digit renders as a digit character. -/
theorem digitChar_isDigit (n : Nat) (h : n < 10) :
    (Nat.digitChar n).isDigit = true := by
  interval_cases n <;> decide

/-- Reading the rendered digit character back gives the digit. -/
theorem digitChar_toNat (n : Nat) (h : n < 10) :
    (Nat.digitChar n).toNat - 48 = n := by
  interval_cases n <;> decide

/-- The decimal rendering is never the empty string. -/
theorem pyStrNat_ne_nil (n : Nat) : pyStrNat n ≠ [] := by
  rw [pyStrNat]
  split
  · simp
  · simp

/-- Every character of the decimal rendering is a digit. -/
theorem pyStrNat_all_digits (n : Nat) :
    (pyStrNat n).all (fun c => c.isDigit) = true := by
  induction n using pyStrNat.induct with
  | case1 n h =>
      rw [pyStrNat, dif_pos h]
      simp [digitChar_isDigit n h]
  | case2 n h ih =>
      rw [pyStrNat, dif_neg h]
      rw [List.all_append, ih]
      simp [digitChar_isDigit (n % 10) (Nat.mod_lt n (by omega))]

/-- Folding the decimal digits back into a number recovers it, whatever was
already accumulated. -/
theorem pyStrNat_foldl (n : Nat) : ∀ acc : Nat,
    (pyStrNat n).foldl (fun acc c => acc * 10 + (c.toNat - 48)) acc =
      acc * 10 ^ (pyStrNat n).length + n := by
  induction n using pyStrNat.induct with
  | case1 n h =>
      intro acc
      rw [pyStrNat, dif_pos h]
      simp [List.foldl, digitChar_toNat n h]
  | case2 n h ih =>
      intro acc
      rw [pyStrNat, dif_neg h]
      rw [List.foldl_append, ih acc]
      simp only [List.foldl, List.length_append, List.length_cons,
        List.length_nil]
      rw [digitChar_toNat (n % 10) (Nat.mod_lt n (by omega))]
      have h2 : (n / 10) * 10 + n % 10 = n := by omega
      calc (acc * 10 ^ (pyStrNat (n / 10)).length + n / 10) * 10 + n % 10
          = acc * (10 ^ (pyStrNat (n / 10)).length * 10) +
              ((n / 10) * 10 + n % 10) := by ring
        _ = acc * 10 ^ ((pyStrNat (n / 10)).length + 1) + n := by
              rw [h2, pow_succ]

/-- Parsing the decimal rendering of a number gives the number back. -/
theorem pyIntNat_pyStrNat (n : Nat) : pyIntNat (pyStrNat n) = some n := by
  unfold pyIntNat
  rw [if_pos ⟨pyStrNat_ne_nil n, pyStrNat_all_digits n⟩]
  rw [pyStrNat_foldl n 0]
  simp

/-- Claim C9: the inline query id of a persisted planning is the fixed
marker `planning_` followed by the decimal rendering of its id — a pure
function of the id alone, as a second planning sharing the id maps to the
same string — and the handler recovers the id exactly: stripping the marker
and parsing the rest as an integer yields the original planning id. -/
theorem inline_query_id_round_trip (p q : Planning) (n : Nat)
    (h : p.pl_id = some n) (hq : q.pl_id = p.pl_id) :
    Planning.inline_query_id p = "planning_" ++ (⟨pyStrNat n⟩ : String) ∧
    Planning.inline_query_id q = Planning.inline_query_id p ∧
    on_inline_query_planning_id (Planning.inline_query_id p) = some n := by
  have hid : Planning.inline_query_id p = "planning_" ++ (⟨pyStrNat n⟩ : String) := by
    unfold Planning.inline_query_id
    rw [h]
  refine ⟨hid, ?_, ?_⟩
  · unfold Planning.inline_query_id
    rw [hq, h]
  · rw [hid]
    unfold on_inline_query_planning_id
    have hdata : ("planning_" ++ (⟨pyStrNat n⟩ : String)).data =
        ("planning_" : String).data ++ pyStrNat n := by
      rw [String.data_append]
    rw [hdata]
    rw [if_pos (List.isPrefixOf_iff_prefix.mpr (List.prefix_append _ _))]
    rw [List.drop_left]
    exact pyIntNat_pyStrNat n

/-- Concrete run of C9: planning 42 renders to its query id and the handler
parses 42 back out of it; a planning with the same id but another title and
status renders identically. -/
theorem inline_query_id_round_trip_witness :
    Planning.inline_query_id ⟨some 42, 7, "Diner", Status.opened⟩ =
      "planning_" ++ (⟨pyStrNat 42⟩ : String) ∧
    Planning.inline_query_id ⟨some 42, 8, "Lunch", Status.closed⟩ =
      Planning.inline_query_id ⟨some 42, 7, "Diner", Status.opened⟩ ∧
    on_inline_query_planning_id
      (Planning.inline_query_id ⟨some 42, 7, "Diner", Status.opened⟩) = some 42 :=
  inline_query_id_round_trip ⟨some 42, 7, "Diner", Status.opened⟩
    ⟨some 42, 8, "Lunch", Status.closed⟩ 42 rfl rfl

end Gandalf
